import Mathlib

/-!
Shallow embedding of the rocketpool-smartnode proxy package
(`NewProxyServer`, `ServeHTTP`) and of the Geth cache-size default
computation (`calculateGethCache`), with theorems settling the spec's
claims about them.
-/

namespace RocketProxy

/-- The format-string constant `INFURA_URL = "https://%s.infura.io/v3/%s"`. -/
def INFURA_URL : String := "https://%s.infura.io/v3/%s"

/-- Model of Go's `fmt.Sprintf` restricted to the `%s` verb: each `%s`
in the format is replaced by the next argument, in order. -/
def substPercentS : List Char → List String → List Char
  | [], _ => []
  | '%' :: 's' :: rest, a :: args => a.data ++ substPercentS rest args
  | c :: rest, args => c :: substPercentS rest args

/-- `fmt.Sprintf fmtStr args` for `%s`-only format strings. -/
def sprintfS (fmtStr : String) (args : List String) : String :=
  ⟨substPercentS fmtStr.data args⟩

/-- The `ProxyServer` struct: a listen port and a provider URL. -/
structure ProxyServer where
  Port : String
  ProviderUrl : String
deriving Repr, DecidableEq

/-- `NewProxyServer(port, providerUrl, network, projectId)`: if the
explicit provider URL is empty it is defaulted to
`fmt.Sprintf(INFURA_URL, network, projectId)`. -/
def NewProxyServer (port providerUrl network projectId : String) : ProxyServer :=
  if providerUrl = "" then
    { Port := port, ProviderUrl := sprintfS INFURA_URL [network, projectId] }
  else
    { Port := port, ProviderUrl := providerUrl }

/-- An inbound HTTP request, as far as `ServeHTTP` observes it:
the `r.Header["Content-Type"]` lookup (`none` models `ok == false`,
i.e. the header is absent) and the request body bytes. -/
structure Request where
  contentTypeHeader : Option (List String)
  body : String
deriving Repr, DecidableEq

/-- Outcome of `io.Copy(w, response.Body)` for a given provider
response: either the whole body is streamed to the caller, or the
copy fails after `n` bytes with error text `msg`. -/
inductive CopyOutcome where
  | ok : CopyOutcome
  | failAfter (n : Nat) (msg : String) : CopyOutcome
deriving Repr, DecidableEq

/-- A provider HTTP response: its body bytes, the Content-Type header
the provider set on it (never read by the handler), and how the
streaming copy of the body to the caller will go. -/
structure ProviderResponse where
  body : String
  contentType : String
  copyOutcome : CopyOutcome
deriving Repr, DecidableEq

/-- Result of `http.Post(url, contentType, body)`: a transport error,
or a provider response. -/
inductive PostResult where
  | postError (msg : String) : PostResult
  | postOk (resp : ProviderResponse) : PostResult
deriving Repr, DecidableEq

/-- The behavior of the remote provider: what `http.Post` returns for a
given URL, content type and request body. -/
def Provider : Type := String → String → String → PostResult

/-- Everything `ServeHTTP` does that is observable from outside:
the bytes written to the caller's response body, the response
Content-Type header (if set), the status code (if explicitly set via
`WriteHeader`; the handler never sets one), whether an outbound POST
was issued and with what URL / content type / body, and whether the
provider response body was closed (`none` when no provider response
was ever obtained). -/
structure HandlerResult where
  responseBody : String
  responseContentType : Option String
  statusCode : Option Nat
  postIssued : Bool
  postUrl : Option String
  postContentType : Option String
  postBody : Option String
  providerBodyClosed : Option Bool
deriving Repr, DecidableEq

/-- `fmt.Fprintln(w, errors.New(msg))` writes `msg` followed by a newline. -/
def fprintlnErr (msg : String) : String := msg ++ "\n"

/-- Error text for a missing Content-Type header. -/
def contentTypeMissingMsg : String := "Request Content-Type header not specified"

/-- Error-text prefix for a failed forward POST. -/
def forwardErrMsg (e : String) : String :=
  "Error forwarding request to remote server: " ++ e

/-- Error-text prefix for a failed response-body copy. -/
def copyErrMsg (e : String) : String :=
  "Error reading response from remote server: " ++ e

/-- The request handler `ServeHTTP`:
1. look up `r.Header["Content-Type"]`; if absent or empty, print an
   error to the response and return;
2. `http.Post(p.ProviderUrl, contentTypes[0], r.Body)`; on error print
   an error to the response and return;
3. `defer response.Body.Close()` (so the body is closed on every
   remaining path);
4. set the response header `Content-Type: application/json`;
5. `io.Copy(w, response.Body)`; on error print an error to the
   response (after whatever bytes were already copied) and return. -/
def ServeHTTP (p : ProxyServer) (provider : Provider) (r : Request) : HandlerResult :=
  match r.contentTypeHeader with
  | none =>
      { responseBody := fprintlnErr contentTypeMissingMsg
        responseContentType := none
        statusCode := none
        postIssued := false
        postUrl := none
        postContentType := none
        postBody := none
        providerBodyClosed := none }
  | some [] =>
      { responseBody := fprintlnErr contentTypeMissingMsg
        responseContentType := none
        statusCode := none
        postIssued := false
        postUrl := none
        postContentType := none
        postBody := none
        providerBodyClosed := none }
  | some (ct :: _) =>
      match provider p.ProviderUrl ct r.body with
      | .postError e =>
          { responseBody := fprintlnErr (forwardErrMsg e)
            responseContentType := none
            statusCode := none
            postIssued := true
            postUrl := some p.ProviderUrl
            postContentType := some ct
            postBody := some r.body
            providerBodyClosed := none }
      | .postOk resp =>
          match resp.copyOutcome with
          | .ok =>
              { responseBody := resp.body
                responseContentType := some "application/json"
                statusCode := none
                postIssued := true
                postUrl := some p.ProviderUrl
                postContentType := some ct
                postBody := some r.body
                providerBodyClosed := some true }
          | .failAfter n e =>
              { responseBody := resp.body.take n ++ fprintlnErr (copyErrMsg e)
                responseContentType := some "application/json"
                statusCode := none
                postIssued := true
                postUrl := some p.ProviderUrl
                postContentType := some ct
                postBody := some r.body
                providerBodyClosed := some true }

/-- `calculateGethCache` from `shared/services/config/new-config.go`,
taking the total system memory in bytes (`memory.TotalMemory()`). -/
def calculateGethCache (totalMemoryBytes : Nat) : Nat :=
  let totalMemoryGB := totalMemoryBytes / 1024 / 1024 / 1024
  if totalMemoryGB = 0 then 0
  else if totalMemoryGB < 9 then 256
  else if totalMemoryGB < 13 then 2048
  else if totalMemoryGB < 17 then 4096
  else if totalMemoryGB < 25 then 8192
  else if totalMemoryGB < 33 then 12288
  else 16384

/-- Substituting two arguments into the `INFURA_URL` template. -/
theorem sprintfS_infura (a b : String) :
    sprintfS INFURA_URL [a, b] = "https://" ++ a ++ ".infura.io/v3/" ++ b := by
  apply String.ext
  simp [sprintfS, INFURA_URL, substPercentS]

/-- A sample proxy server used to instantiate the theorems. -/
def exServer : ProxyServer := { Port := "8545", ProviderUrl := "http://provider.example" }

/-- A provider whose POST succeeds and whose body streams fully. -/
def exOkProvider : Provider :=
  fun _ _ _ => .postOk { body := "RESULT", contentType := "text/plain", copyOutcome := .ok }

/-- A provider whose POST fails. -/
def exFailProvider : Provider := fun _ _ _ => .postError "connection refused"

/-- A provider whose POST succeeds but whose body copy drops after 3 bytes. -/
def exDropProvider : Provider :=
  fun _ _ _ =>
    .postOk { body := "RESULT", contentType := "text/plain",
              copyOutcome := .failAfter 3 "unexpected EOF" }

/-- A sample request with two Content-Type values. -/
def exReq : Request := { contentTypeHeader := some ["application/json", "text/plain"], body := "payload" }

/-- A sample request with no Content-Type header. -/
def exNoCtReq : Request := { contentTypeHeader := none, body := "payload" }

/-- Claim C1: for every inbound request whose Content-Type header is absent
or empty, the handler writes the failure message to the response body,
issues no outbound POST, and never contacts the provider URL. -/
theorem missing_content_type_no_forward (p : ProxyServer) (provider : Provider) (r : Request)
    (h : r.contentTypeHeader = none ∨ r.contentTypeHeader = some []) :
    (ServeHTTP p provider r).responseBody = fprintlnErr contentTypeMissingMsg ∧
    (ServeHTTP p provider r).postIssued = false ∧
    (ServeHTTP p provider r).postUrl = none := by
  rcases h with h | h <;> simp [ServeHTTP, h]

/-- Witness for C1 at a concrete request with no Content-Type header. -/
theorem missing_content_type_no_forward_witness :
    (ServeHTTP exServer exOkProvider exNoCtReq).responseBody = fprintlnErr contentTypeMissingMsg ∧
    (ServeHTTP exServer exOkProvider exNoCtReq).postIssued = false ∧
    (ServeHTTP exServer exOkProvider exNoCtReq).postUrl = none :=
  missing_content_type_no_forward exServer exOkProvider exNoCtReq (Or.inl rfl)

/-- Claim C2: when the request carries a Content-Type header and the forward
POST succeeds with body `B` (fully streamed), the handler sets the caller's
response Content-Type to `application/json` — whatever Content-Type the
provider's response carried — and writes exactly the bytes `B`. -/
theorem success_relays_exact_bytes (p : ProxyServer) (provider : Provider) (r : Request)
    (ct : String) (rest : List String) (resp : ProviderResponse)
    (hct : r.contentTypeHeader = some (ct :: rest))
    (hpost : provider p.ProviderUrl ct r.body = .postOk resp)
    (hcopy : resp.copyOutcome = .ok) :
    (ServeHTTP p provider r).responseContentType = some "application/json" ∧
    (ServeHTTP p provider r).responseBody = resp.body := by
  simp [ServeHTTP, hct, hpost, hcopy]

/-- Witness for C2 at a concrete request and provider. -/
theorem success_relays_exact_bytes_witness :
    (ServeHTTP exServer exOkProvider exReq).responseContentType = some "application/json" ∧
    (ServeHTTP exServer exOkProvider exReq).responseBody = "RESULT" :=
  success_relays_exact_bytes exServer exOkProvider exReq "application/json" ["text/plain"]
    { body := "RESULT", contentType := "text/plain", copyOutcome := .ok } rfl rfl rfl

/-- Claim C3: when the copy of the provider's body fails after `n` bytes,
the handler's response is the partial provider bytes followed by the
appended failure message, with Content-Type already `application/json`;
nothing is retracted and no retry happens. -/
theorem midcopy_failure_appends_error (p : ProxyServer) (provider : Provider) (r : Request)
    (ct : String) (rest : List String) (resp : ProviderResponse) (n : Nat) (e : String)
    (hct : r.contentTypeHeader = some (ct :: rest))
    (hpost : provider p.ProviderUrl ct r.body = .postOk resp)
    (hcopy : resp.copyOutcome = .failAfter n e) :
    (ServeHTTP p provider r).responseBody
      = resp.body.take n ++ fprintlnErr (copyErrMsg e) ∧
    (ServeHTTP p provider r).responseContentType = some "application/json" := by
  simp [ServeHTTP, hct, hpost, hcopy]

/-- Witness for C3 at a provider that drops the connection after 3 bytes. -/
theorem midcopy_failure_appends_error_witness :
    (ServeHTTP exServer exDropProvider exReq).responseBody
      = "RES" ++ fprintlnErr (copyErrMsg "unexpected EOF") ∧
    (ServeHTTP exServer exDropProvider exReq).responseContentType = some "application/json" :=
  midcopy_failure_appends_error exServer exDropProvider exReq "application/json" ["text/plain"]
    { body := "RESULT", contentType := "text/plain", copyOutcome := .failAfter 3 "unexpected EOF" }
    3 "unexpected EOF" rfl rfl rfl

/-- Claim C4: whenever the forward POST succeeds, the provider response's
body is closed on every exit path of the handler, including the path where
the body copy fails partway. -/
theorem provider_body_always_closed (p : ProxyServer) (provider : Provider) (r : Request)
    (ct : String) (rest : List String) (resp : ProviderResponse)
    (hct : r.contentTypeHeader = some (ct :: rest))
    (hpost : provider p.ProviderUrl ct r.body = .postOk resp) :
    (ServeHTTP p provider r).providerBodyClosed = some true := by
  cases hco : resp.copyOutcome <;> simp [ServeHTTP, hct, hpost, hco]

/-- Witness for C4 on the copy-failure path. -/
theorem provider_body_always_closed_witness :
    (ServeHTTP exServer exDropProvider exReq).providerBodyClosed = some true :=
  provider_body_always_closed exServer exDropProvider exReq "application/json" ["text/plain"]
    { body := "RESULT", contentType := "text/plain", copyOutcome := .failAfter 3 "unexpected EOF" }
    rfl rfl

/-- Claim C5: constructing with an empty explicit provider URL substitutes
the network and project id into the Infura template; in particular
network `mainnet` and project id `abc123` give
`https://mainnet.infura.io/v3/abc123`. -/
theorem empty_url_synthesizes_infura (port network projectId : String) :
    (NewProxyServer port "" network projectId).ProviderUrl
      = "https://" ++ network ++ ".infura.io/v3/" ++ projectId ∧
    (NewProxyServer "8545" "" "mainnet" "abc123").ProviderUrl
      = "https://mainnet.infura.io/v3/abc123" := by
  constructor
  · simp [NewProxyServer, sprintfS_infura]
  · decide

/-- Claim C6: constructing with a non-empty explicit provider URL keeps
that URL and the given port, for all network and project id values. -/
theorem explicit_url_kept (port url network projectId : String) (h : url ≠ "") :
    (NewProxyServer port url network projectId).ProviderUrl = url ∧
    (NewProxyServer port url network projectId).Port = port := by
  simp [NewProxyServer, h]

/-- Witness for C6 at a concrete explicit URL. -/
theorem explicit_url_kept_witness :
    (NewProxyServer "8545" "http://provider.example" "mainnet" "abc123").ProviderUrl
      = "http://provider.example" ∧
    (NewProxyServer "8545" "http://provider.example" "mainnet" "abc123").Port = "8545" :=
  explicit_url_kept "8545" "http://provider.example" "mainnet" "abc123" (by decide)

/-- Claim C7: for every combination of constructor arguments, including
all-empty ones, the constructed server's provider URL is non-empty. -/
theorem provider_url_nonempty (port url network projectId : String) :
    (NewProxyServer port url network projectId).ProviderUrl ≠ "" := by
  by_cases h : url = ""
  · subst h
    simp only [NewProxyServer, if_pos rfl, sprintfS_infura]
    intro hc
    have hl := congrArg String.length hc
    simp [String.length_append] at hl
    exact (by decide : "https://".length ≠ 0) hl.1.1.1
  · simp [NewProxyServer, h]

/-- Claim C8: on the missing-Content-Type path and on the failed-POST path,
the handler sets no status code and no response Content-Type; the only
response effect is the plaintext error message in the body. -/
theorem error_paths_leave_status_unset (p : ProxyServer) (provider : Provider) (r : Request) :
    ((r.contentTypeHeader = none ∨ r.contentTypeHeader = some []) →
      (ServeHTTP p provider r).statusCode = none ∧
      (ServeHTTP p provider r).responseContentType = none ∧
      (ServeHTTP p provider r).responseBody = fprintlnErr contentTypeMissingMsg) ∧
    (∀ ct rest e, r.contentTypeHeader = some (ct :: rest) →
      provider p.ProviderUrl ct r.body = .postError e →
      (ServeHTTP p provider r).statusCode = none ∧
      (ServeHTTP p provider r).responseContentType = none ∧
      (ServeHTTP p provider r).responseBody = fprintlnErr (forwardErrMsg e)) := by
  constructor
  · intro h
    rcases h with h | h <;> simp [ServeHTTP, h]
  · intro ct rest e hct hpost
    simp [ServeHTTP, hct, hpost]

/-- Witness for C8 on both error paths at concrete inputs. -/
theorem error_paths_leave_status_unset_witness :
    ((ServeHTTP exServer exFailProvider exNoCtReq).statusCode = none ∧
      (ServeHTTP exServer exFailProvider exNoCtReq).responseContentType = none ∧
      (ServeHTTP exServer exFailProvider exNoCtReq).responseBody
        = fprintlnErr contentTypeMissingMsg) ∧
    ((ServeHTTP exServer exFailProvider exReq).statusCode = none ∧
      (ServeHTTP exServer exFailProvider exReq).responseContentType = none ∧
      (ServeHTTP exServer exFailProvider exReq).responseBody
        = fprintlnErr (forwardErrMsg "connection refused")) :=
  ⟨(error_paths_leave_status_unset exServer exFailProvider exNoCtReq).1 (Or.inl rfl),
   (error_paths_leave_status_unset exServer exFailProvider exReq).2
     "application/json" ["text/plain"] "connection refused" rfl rfl⟩

/-- Claim C9: when the Content-Type header carries one or more values, the
forwarded POST uses exactly the first value; the remaining values have no
effect on the forwarded content type. -/
theorem forward_uses_first_content_type (p : ProxyServer) (provider : Provider) (r : Request)
    (ct : String) (rest : List String)
    (hct : r.contentTypeHeader = some (ct :: rest)) :
    (ServeHTTP p provider r).postContentType = some ct ∧
    (ServeHTTP p provider r).postIssued = true := by
  cases hpost : provider p.ProviderUrl ct r.body with
  | postError e => simp [ServeHTTP, hct, hpost]
  | postOk resp => cases hco : resp.copyOutcome <;> simp [ServeHTTP, hct, hpost, hco]

/-- Witness for C9 at a request with two Content-Type values. -/
theorem forward_uses_first_content_type_witness :
    (ServeHTTP exServer exOkProvider exReq).postContentType = some "application/json" ∧
    (ServeHTTP exServer exOkProvider exReq).postIssued = true :=
  forward_uses_first_content_type exServer exOkProvider exReq
    "application/json" ["text/plain"] rfl

/-- Claim C10: the Geth cache-size default is monotone non-decreasing in
total system memory, and its value is always one of
0, 256, 2048, 4096, 8192, 12288, 16384 MB. -/
theorem gethCache_monotone_bounded (m1 m2 : Nat) (h : m1 ≤ m2) :
    calculateGethCache m1 ≤ calculateGethCache m2 ∧
    calculateGethCache m1 ∈ [0, 256, 2048, 4096, 8192, 12288, 16384] ∧
    calculateGethCache m2 ∈ [0, 256, 2048, 4096, 8192, 12288, 16384] := by
  have hg : m1 / 1024 / 1024 / 1024 ≤ m2 / 1024 / 1024 / 1024 :=
    Nat.div_le_div_right (Nat.div_le_div_right (Nat.div_le_div_right h))
  refine ⟨?_, ?_, ?_⟩ <;> simp only [calculateGethCache] <;> split_ifs <;> simp <;> omega

/-- Witness for C10 at 8 GiB and 16 GiB of system memory. -/
theorem gethCache_monotone_bounded_witness :
    calculateGethCache (2 ^ 33) ≤ calculateGethCache (2 ^ 34) ∧
    calculateGethCache (2 ^ 33) ∈ [0, 256, 2048, 4096, 8192, 12288, 16384] ∧
    calculateGethCache (2 ^ 34) ∈ [0, 256, 2048, 4096, 8192, 12288, 16384] :=
  gethCache_monotone_bounded (2 ^ 33) (2 ^ 34) (by norm_num)

end RocketProxy
